import Mathlib

/-!
Shallow embedding of `src/mdsapt/reader.py` (class `InputReader`) and proofs
about the validation pipeline it implements.

Modelling conventions, applied uniformly:
* YAML values are the inductive `Val`; a YAML mapping is an association list
  `Dict` looked up front-to-back (first binding wins, as in a Python dict with
  distinct keys).
* A Python method that can raise is a Lean function into `Except PyErr _`.
  `PyErr` mirrors the exception classes that can surface: the repo's
  `InputError` (carrying the diagnostic the code logs at the raise site),
  and the builtin `AttributeError`, `KeyError`, `TypeError`, `NameError`,
  `IOError`, `ValueError`, plus yaml's `YAMLError`.
* The instance (`self.__dict__`) is the association list `Attrs`; a fresh
  `InputReader` object has no instance attributes (the class-level
  annotations on lines 36-54 create none), so construction starts from `[]`.
* External collaborators (the file system, yaml decoding, `mda.Universe`)
  are an explicit `Env` parameter; a structure handle is `Universe`, exposing
  its frame count and which residue-id selections succeed.
* Values whose shapes differ from the schema (for example a non-string
  `topology_path`) are modelled as `TypeError` at their first use; every
  theorem below only exercises schema-shaped documents.
-/

namespace MDSAPT

/-- A decoded YAML value (`yaml.safe_load` output). -/
inductive Val where
  | vint : Int → Val
  | vfloat : Rat → Val
  | vstr : String → Val
  | vbool : Bool → Val
  | vnone : Val
  | vlist : List Val → Val
  | vdict : List (String × Val) → Val

/-- A YAML mapping: association list, first binding wins. -/
abbrev Dict := List (String × Val)

/-- The instance dictionary of an `InputReader` object. -/
abbrev Attrs := List (String × Val)

/-- Exceptions that can surface from `mdsapt.reader`. `inputError` is the
repo's `InputError`, carrying the diagnostic logged at the raise site (or
`none` for a bare raise with no log). -/
inductive PyErr where
  | inputError : Option String → PyErr
  | attributeError : String → PyErr
  | keyError : String → PyErr
  | typeError : PyErr
  | nameError : String → PyErr
  | ioError : PyErr
  | yamlError : PyErr
  | valueError : PyErr
  deriving DecidableEq

/-- An `mda.Universe` handle: its trajectory length and which residue-id
selections resolve (`select_atoms` raises `SelectionError` exactly on the
ids where `selOk` is `false`). -/
structure Universe where
  nframes : Nat
  selOk : Int → Bool

/-- Outcome of constructing `mda.Universe(...)`: success, `NoDataError`,
or `ValueError`. -/
inductive UnivResult where
  | ok : Universe → UnivResult
  | noData : UnivResult
  | valueError : UnivResult

/-- Outcome of `yaml.safe_load(open(path))`: `open` raises `IOError`,
`safe_load` raises `YAMLError`, or a decoded value is returned. -/
inductive FileOutcome where
  | openFail : FileOutcome
  | decodeFail : FileOutcome
  | ok : Val → FileOutcome

/-- The ambient world: file contents by path, `os.path.exists`, and the
`mda.Universe` constructor. -/
structure Env where
  fs : String → FileOutcome
  pathExists : String → Bool
  mkUniverse : String → List String → UnivResult

/-- Association-list lookup, first binding wins (Python dict subscript). -/
def getKey : Dict → String → Option Val
  | [], _ => none
  | (k', v) :: rest, k => if k' = k then some v else getKey rest k

/-- `d[k]` raising `KeyError` when absent. -/
def getItem (d : Dict) (k : String) : Except PyErr Val :=
  match getKey d k with
  | some v => Except.ok v
  | none => Except.error (PyErr.keyError k)

/-- `v[k]` on an arbitrary value: `TypeError` unless `v` is a mapping. -/
def getItemV (v : Val) (k : String) : Except PyErr Val :=
  match v with
  | Val.vdict d => getItem d k
  | _ => Except.error PyErr.typeError

/-- Shape coercion: the value must be a mapping. -/
def asDictE : Val → Except PyErr Dict
  | Val.vdict d => Except.ok d
  | _ => Except.error PyErr.typeError

/-- Shape coercion: the value must be a string. -/
def asStrE : Val → Except PyErr String
  | Val.vstr s => Except.ok s
  | _ => Except.error PyErr.typeError

/-- Shape coercion: the value must be an integer. -/
def asIntE : Val → Except PyErr Int
  | Val.vint n => Except.ok n
  | _ => Except.error PyErr.typeError

/-- Shape coercion: a sequence of strings. -/
def asStrListE : Val → Except PyErr (List String)
  | Val.vlist xs => xs.mapM asStrE
  | _ => Except.error PyErr.typeError

/-- Shape coercion: a sequence of integers. -/
def asIntListE : Val → Except PyErr (List Int)
  | Val.vlist xs => xs.mapM asIntE
  | _ => Except.error PyErr.typeError

/-- Shape coercion: a sequence of integer sequences. -/
def asPairListE : Val → Except PyErr (List (List Int))
  | Val.vlist ps => ps.mapM asIntListE
  | _ => Except.error PyErr.typeError

/-- Shape coercion: a YAML `null` becomes Python `None`, otherwise a pair
list. -/
def asPairsOptE : Val → Except PyErr (Option (List (List Int)))
  | Val.vnone => Except.ok none
  | v => (asPairListE v).map some

/-- Shape coercion: the value must be a sequence (to be iterated). -/
def asListE : Val → Except PyErr (List Val)
  | Val.vlist xs => Except.ok xs
  | _ => Except.error PyErr.typeError

/-- Diagnostic raised for a selection failure (reader.py line 194). -/
def selMsg (sel : Int) : String := "Error in selection: " ++ toString sel

/-- Diagnostic logged for a wrongly sized pair (reader.py line 199). -/
def arityMsg : String := "Pairs must be a python list of integers with 2 items"

/-- Diagnostic logged for a pair member absent from the declared selections
(reader.py lines 209 and 212). -/
def pairMsg (m : Int) (p : List Int) : String :=
  toString m ++ " in " ++ toString p ++
    " group_pair_selections is not in defined in atom_group_names"

/-- The per-selection loop of `_check_selections` (reader.py lines 190-194):
each iteration issues `universe.select_atoms` for one residue id; a
`SelectionError` is immediately re-raised as `InputError`, aborting the loop.
The second component records the ids actually queried, in order. -/
def selLoop (unv : Universe) : List Int → Except PyErr Unit × List Int
  | [] => (Except.ok (), [])
  | sel :: rest =>
    if unv.selOk sel then
      let r := selLoop unv rest
      (r.1, sel :: r.2)
    else
      (Except.error (PyErr.inputError (some (selMsg sel))), [sel])

/-- The pair loop of `_check_selections` (reader.py lines 196-213): for each
pair, first the arity check (`len(pair) != 2`), then the `for name in ag_sel`
scan setting `found0`/`found1`; a missing member raises naming `pair[0]`
before `pair[1]`. Each raise aborts the loop. -/
def pairLoop (ag_sel : List Int) : List (List Int) → Except PyErr Unit
  | [] => Except.ok ()
  | p :: rest =>
    match p with
    | [a, b] =>
      if a ∉ ag_sel then Except.error (PyErr.inputError (some (pairMsg a p)))
      else if b ∉ ag_sel then Except.error (PyErr.inputError (some (pairMsg b p)))
      else pairLoop ag_sel rest
    | _ => Except.error (PyErr.inputError (some arityMsg))

/-- `InputReader._check_selections` (reader.py lines 187-213). Returns the
result together with the trace of residue ids queried against the handle. -/
def _check_selections (unv : Universe) (ag_sel : List Int)
    (ag_pair : Option (List (List Int))) : Except PyErr Unit × List Int :=
  match selLoop unv ag_sel with
  | (Except.error e, q) => (Except.error e, q)
  | (Except.ok _, q) =>
    match ag_pair with
    | none => (Except.ok (), q)
    | some pairs => (pairLoop ag_sel pairs, q)

/-- `InputReader._check_sys_settings` (reader.py lines 215-225): subscripts
`ncpus`, `memory`, `time`; the bare `except:` catches the `KeyError`, but its
handler's f-string reads the unbound name `err`, so a missing key surfaces as
`NameError`, not `InputError`. -/
def _check_sys_settings (sys_settings : Dict) : Except PyErr Unit :=
  match getKey sys_settings "ncpus", getKey sys_settings "memory",
      getKey sys_settings "time" with
  | some _, some _, some _ => Except.ok ()
  | _, _, _ => Except.error (PyErr.nameError "err")

/-- `InputReader._check_trj_settings` (reader.py lines 227-253): extracts
`start`, `step`, `stop` (a `KeyError` lands in a handler whose f-string reads
the unbound name `err`, surfacing `NameError`); then the four ordered window
checks, each raising `InputError` with the logged diagnostic. Non-integer
window values are modelled as `TypeError` per the file-level convention. -/
def _check_trj_settings (unv : Universe) (trj_settings : Dict) :
    Except PyErr Unit :=
  match getKey trj_settings "start", getKey trj_settings "step",
      getKey trj_settings "stop" with
  | some (Val.vint start), some (Val.vint step), some (Val.vint stop) =>
    if start ≥ stop then
      Except.error (PyErr.inputError (some "Start is greater than or equal to stop"))
    else if step ≥ stop then
      Except.error (PyErr.inputError (some "Step is greater than or equal to stop"))
    else if step = 0 then
      Except.error (PyErr.inputError (some "Step cannot be 0"))
    else if (unv.nframes : Int) < stop then
      Except.error (PyErr.inputError (some "Stop exceeds length of trajectory."))
    else Except.ok ()
  | none, _, _ => Except.error (PyErr.nameError "err")
  | _, none, _ => Except.error (PyErr.nameError "err")
  | _, _, none => Except.error (PyErr.nameError "err")
  | _, _, _ => Except.error PyErr.typeError

/-- `InputReader._check_opt_sapt_settings` (reader.py lines 255-267): the
parameter is spelled `sapt_setting` but the body reads `sapt_settings`. So
`opt_settings['pH']` runs first — if `pH` is absent the `KeyError` is caught
and `InputError` raised — and otherwise the very next statement
`sapt_settings['method']` raises `NameError` (not a `KeyError`, so it
escapes); the method/basis/settings/save_psi4_output subscripts are dead. -/
def _check_opt_sapt_settings (opt_settings : Dict) (sapt_setting : Dict) :
    Except PyErr Unit :=
  match getKey opt_settings "pH" with
  | none => Except.error (PyErr.inputError (some "pH: missing data in input file"))
  | some _ => Except.error (PyErr.nameError "sapt_settings")

/-- `InputReader._check_trj_files` (reader.py lines 163-175): existence checks
raise a bare `InputError` (the `except` clause `NoDataError or InputError or
ValueError` evaluates to `NoDataError` alone, so the bare raise propagates
unchanged); `mda.Universe` raising `NoDataError` is caught and re-raised as
`InputError` after logging, while a `ValueError` escapes uncaught. -/
def _check_trj_files (env : Env) (top_path : String) (trj_path : List String) :
    Except PyErr Universe :=
  if env.pathExists top_path = false then Except.error (PyErr.inputError none)
  else if trj_path.all env.pathExists = false then
    Except.error (PyErr.inputError none)
  else
    match env.mkUniverse top_path trj_path with
    | UnivResult.ok u => Except.ok u
    | UnivResult.noData => Except.error (PyErr.inputError (some "MD file error"))
    | UnivResult.valueError => Except.error PyErr.valueError

/-- Diagnostic for a key missing during orchestrator extraction
(reader.py lines 134-136 and 152-154): `f'{err}: missing from YAML file'`
where `err` prints as the quoted key. -/
def missingMsg (k : String) : String := k ++ ": missing from YAML file"

/-- One extraction inside the orchestrators' `try` blocks: a `KeyError` is
caught and re-raised as `InputError` naming the key. -/
def extractK (d : Dict) (k : String) : Except PyErr Val :=
  match getKey d k with
  | some v => Except.ok v
  | none => Except.error (PyErr.inputError (some (missingMsg k)))

/-- `InputReader._check_trj_inputs` (reader.py lines 123-142): extracts the
eight required keys (first missing key aborts with `InputError`), then runs
`_check_trj_files`, `_check_selections`, `_check_sys_settings`,
`_check_trj_settings`, `_check_opt_sapt_settings` in that order. Shape
coercions sit immediately before the call that would first use the value. -/
def _check_trj_inputs (env : Env) (v : Val) : Except PyErr Unit := do
  let d ← asDictE v
  let tpv ← extractK d "topology_path"
  let trpv ← extractK d "trajectory_paths"
  let agsv ← extractK d "selection_resid_num"
  let agpv ← extractK d "int_pairs"
  let tsv ← extractK d "trajectory_settings"
  let ssv ← extractK d "system_settings"
  let osv ← extractK d "opt_settings"
  let sasv ← extractK d "sapt_settings"
  let tp ← asStrE tpv
  let trp ← asStrListE trpv
  let unv ← _check_trj_files env tp trp
  let ags ← asIntListE agsv
  let agp ← asPairsOptE agpv
  let _ ← (_check_selections unv ags agp).1
  let ss ← asDictE ssv
  _check_sys_settings ss
  let ts ← asDictE tsv
  _check_trj_settings unv ts
  let osd ← asDictE osv
  let sasd ← asDictE sasv
  _check_opt_sapt_settings osd sasd

/-- `InputReader._check_docking_inputs` (reader.py lines 144-161): extracts
six required keys — note `int_pairs` is among them, so it is required in
docking mode too. The per-structure loop body begins with
`unv = self._check_top_files(path)`; `_check_top_files` (lines 177-185) lacks
`@staticmethod`, so the bound call passes two positional arguments to a
one-parameter function and raises `TypeError` on the first iteration (an
empty `topology_directory` skips the loop body entirely). -/
def _check_docking_inputs (v : Val) : Except PyErr Unit := do
  let d ← asDictE v
  let tpv ← extractK d "topology_directory"
  let _agsv ← extractK d "selection_resid_num"
  let _agpv ← extractK d "int_pairs"
  let ssv ← extractK d "system_settings"
  let osv ← extractK d "opt_settings"
  let sasv ← extractK d "sapt_settings"
  let tp ← asListE tpv
  match tp with
  | _ :: _ => Except.error PyErr.typeError
  | [] => do
    let ss ← asDictE ssv
    _check_sys_settings ss
    let osd ← asDictE osv
    let sasd ← asDictE sasv
    _check_opt_sapt_settings osd sasd

/-- The `input_type` property (reader.py lines 90-92): reads the instance
attribute `_input_type`; if it was never assigned, attribute lookup raises
`AttributeError`. -/
def input_type (s : Attrs) : Except PyErr Val :=
  match getKey s "_input_type" with
  | some v => Except.ok v
  | none => Except.error (PyErr.attributeError "_input_type")

/-- `InputReader._check_type` (reader.py lines 81-88): with a
`topology_directory` key the code assigns `self.input_type = 'docking'`, but
`input_type` is a getter-only property, so the assignment raises
`AttributeError`; with only a `topology_path` key it sets
`self._input_type = 'trajectory'`; with neither it raises `InputError`. -/
def _check_type (s : Attrs) (yaml_dict : Dict) : Except PyErr Attrs :=
  if (getKey yaml_dict "topology_directory").isSome then
    Except.error (PyErr.attributeError "input_type has no setter")
  else if (getKey yaml_dict "topology_path").isSome then
    Except.ok (("_input_type", Val.vstr "trajectory") :: s)
  else
    Except.error (PyErr.inputError (some "Input file missing information."))

/-- `InputReader._check_inputs` (reader.py lines 114-121): reads
`self.input_type` (which raises `AttributeError` on a fresh instance, since
nothing in the pipeline ever calls `_check_type`), then dispatches on the
string value. -/
def _check_inputs (env : Env) (s : Attrs) (v : Val) : Except PyErr Unit := do
  let t ← input_type s
  match t with
  | Val.vstr ty =>
    if ty = "trajectory" then _check_trj_inputs env v
    else if ty = "docking" then _check_docking_inputs v
    else Except.error (PyErr.inputError (some "Non valid input type"))
  | _ => Except.error (PyErr.inputError (some "Non valid input type"))

/-- `InputReader._save_params` (reader.py lines 94-112): plain subscripts in
source order (a missing key escapes as `KeyError`), each result stored as an
instance attribute. The Python code assigns each attribute right after its
lookup; since an exception makes the final state unobservable through the
pipeline, performing the assignments together after the lookups is
observationally equivalent. -/
def _save_params (s : Attrs) (v : Val) : Except PyErr Attrs := do
  let d ← asDictE v
  let top ← getItem d "topology_path"
  let trj ← getItem d "trajectory_paths"
  let ags ← getItem d "selection_resid_num"
  let agp ← getItem d "int_pairs"
  let ts ← getItem d "trajectory_settings"
  let ss ← getItem d "system_settings"
  let opt ← getItem d "opt_settings"
  let sas ← getItem d "sapt_settings"
  let method ← getItemV (Val.vdict d) "sapt_settings" >>= (getItemV · "method")
  let basis ← getItemV (Val.vdict d) "sapt_settings" >>= (getItemV · "basis")
  let sout ← getItemV (Val.vdict d) "sapt_settings" >>= (getItemV · "save_psi4_output")
  let tstart ← getItemV (Val.vdict d) "trajectory_settings" >>= (getItemV · "start")
  let tstop ← getItemV (Val.vdict d) "trajectory_settings" >>= (getItemV · "stop")
  let tstep ← getItemV (Val.vdict d) "trajectory_settings" >>= (getItemV · "step")
  let ph ← getItemV (Val.vdict d) "opt_settings" >>= (getItemV · "pH")
  let ncpus ← getItemV (Val.vdict d) "system_settings" >>= (getItemV · "ncpus")
  let mem ← getItemV (Val.vdict d) "system_settings" >>= (getItemV · "memory")
  let wt ← getItemV (Val.vdict d) "system_settings" >>= (getItemV · "time")
  Except.ok (("walltime", wt) :: ("memory", mem) :: ("ncpus", ncpus) ::
    ("pH", ph) :: ("step", tstep) :: ("stop", tstop) :: ("start", tstart) ::
    ("sapt_out", sout) :: ("sapt_basis", basis) :: ("sapt_method", method) ::
    ("sapt_settings", sas) :: ("opt_settings", opt) :: ("sys_settings", ss) ::
    ("trj_settings", ts) :: ("ag_pair", agp) :: ("ag_sel", ags) ::
    ("trj_path", trj) :: ("top_path", top) :: s)

/-- `InputReader.load_input` (reader.py lines 65-79): the `try` body is
`yaml.safe_load(open(path))`, `_check_inputs`, `_save_params`; the clause
`except IOError or InputError` evaluates its expression to `IOError`, so
only an `IOError` is caught (and re-raised as `InputError` after logging
`error loading file {path}`); every other exception escapes unchanged. -/
def load_input (env : Env) (s : Attrs) (path : String) : Except PyErr Attrs :=
  let body : Except PyErr Attrs :=
    match env.fs path with
    | FileOutcome.openFail => Except.error PyErr.ioError
    | FileOutcome.decodeFail => Except.error PyErr.yamlError
    | FileOutcome.ok v =>
      match _check_inputs env s v with
      | Except.error e => Except.error e
      | Except.ok _ => _save_params s v
  match body with
  | Except.error PyErr.ioError =>
    Except.error (PyErr.inputError (some ("error loading file " ++ path)))
  | r => r

/-- `InputReader.__init__` (reader.py lines 56-63): a fresh instance (empty
`__dict__`) immediately runs `load_input`. This is the validation pipeline's
sole entry point. -/
def InputReader_new (env : Env) (path : String) : Except PyErr Attrs :=
  load_input env [] path

/-- Two back-to-back constructions of `InputReader` on the same document and
the same referenced files: each run builds a fresh instance, so nothing
persists from the first run into the second. -/
def runTwice (env : Env) (path : String) :
    Except PyErr Attrs × Except PyErr Attrs :=
  (InputReader_new env path, InputReader_new env path)

/-! Concrete fixtures for the spec's scenarios. -/

/-- The spec's trajectory-settings block: start 0, stop 100, step 1, pH 7.0. -/
def trjSettingsA : Dict :=
  [("start", Val.vint 0), ("stop", Val.vint 100), ("step", Val.vint 1),
   ("pH", Val.vfloat 7)]

/-- A fully populated system-settings block. -/
def sysSettingsA : Dict :=
  [("ncpus", Val.vint 4), ("memory", Val.vint 8), ("time", Val.vstr "04:00:00")]

/-- A fully populated opt-settings block. -/
def optSettingsA : Dict := [("pH", Val.vfloat 7)]

/-- A fully populated sapt-settings block. -/
def saptSettingsA : Dict :=
  [("method", Val.vstr "sapt0"), ("basis", Val.vstr "jun-cc-pvdz"),
   ("settings", Val.vdict [("reference", Val.vstr "rhf")]),
   ("save_psi4_output", Val.vbool true)]

/-- The spec section 8 trajectory scenario document: topology a.pdb,
trajectory a.dcd, selections 10 and 20, pair (10, 20), window 0..100 step 1,
all settings blocks present. -/
def cfgTrajectory : Dict :=
  [("topology_path", Val.vstr "a.pdb"),
   ("trajectory_paths", Val.vlist [Val.vstr "a.dcd"]),
   ("selection_resid_num", Val.vlist [Val.vint 10, Val.vint 20]),
   ("int_pairs", Val.vlist [Val.vlist [Val.vint 10, Val.vint 20]]),
   ("trajectory_settings", Val.vdict trjSettingsA),
   ("system_settings", Val.vdict sysSettingsA),
   ("opt_settings", Val.vdict optSettingsA),
   ("sapt_settings", Val.vdict saptSettingsA)]

/-- The spec section 8 docking scenario document: two structures, valid
selections, no `int_pairs` key, both settings blocks present. -/
def cfgDocking : Dict :=
  [("topology_directory", Val.vlist [Val.vstr "d1.pdb", Val.vstr "d2.pdb"]),
   ("selection_resid_num", Val.vlist [Val.vint 10, Val.vint 20]),
   ("system_settings", Val.vdict sysSettingsA),
   ("opt_settings", Val.vdict optSettingsA),
   ("sapt_settings", Val.vdict saptSettingsA)]

/-- A 200-frame structure handle on which every residue-id selection
resolves. -/
def unvA : Universe := { nframes := 200, selOk := fun _ => true }

/-- World for the trajectory scenario: every path exists, every file decodes
to `cfgTrajectory`, and the structure loads as `unvA` (200 frames). -/
def envTrajectory : Env :=
  { fs := fun _ => FileOutcome.ok (Val.vdict cfgTrajectory),
    pathExists := fun _ => true,
    mkUniverse := fun _ _ => UnivResult.ok unvA }

/-- World for the docking scenario: every path exists and every file decodes
to `cfgDocking`. -/
def envDocking : Env :=
  { fs := fun _ => FileOutcome.ok (Val.vdict cfgDocking),
    pathExists := fun _ => true,
    mkUniverse := fun _ _ => UnivResult.ok unvA }

/-- World whose document file is unparsable YAML. -/
def envDecodeFail : Env :=
  { fs := fun _ => FileOutcome.decodeFail,
    pathExists := fun _ => true,
    mkUniverse := fun _ _ => UnivResult.ok unvA }

/-- World whose document file cannot be opened. -/
def envOpenFail : Env :=
  { fs := fun _ => FileOutcome.openFail,
    pathExists := fun _ => true,
    mkUniverse := fun _ _ => UnivResult.ok unvA }

/-- A 200-frame structure handle on which no residue-id selection
resolves. -/
def unvNone : Universe := { nframes := 200, selOk := fun _ => false }

/-- A structure handle on which exactly residue id 10 resolves. -/
def unvOnly10 : Universe := { nframes := 200, selOk := fun i => i == 10 }

/-! Helper lemmas about the selection and pair loops. -/

/-- If every id in the sequence resolves, the selection loop succeeds and
queries exactly the whole sequence, in order. -/
theorem selLoop_all_ok (unv : Universe) :
    ∀ sel : List Int, (∀ i ∈ sel, unv.selOk i = true) →
      selLoop unv sel = (Except.ok (), sel) := by
  intro sel
  induction sel with
  | nil => intro _; rfl
  | cons a rest ih =>
    intro h
    have ha : unv.selOk a = true := h a (List.mem_cons_self a rest)
    have hr := ih fun i hi => h i (List.mem_cons_of_mem a hi)
    simp [selLoop, ha, hr]

/-- The selection loop stops at the first failing id: everything before it is
queried, the failing id is queried, and nothing after it is queried. -/
theorem selLoop_first_fail (unv : Universe) (x : Int) (hx : unv.selOk x = false) :
    ∀ pre post : List Int, (∀ y ∈ pre, unv.selOk y = true) →
      selLoop unv (pre ++ x :: post) =
        (Except.error (PyErr.inputError (some (selMsg x))), pre ++ [x]) := by
  intro pre
  induction pre with
  | nil => intro post _; simp [selLoop, hx]
  | cons a rest ih =>
    intro post h
    have ha : unv.selOk a = true := h a (List.mem_cons_self a rest)
    have hr := ih post fun y hy => h y (List.mem_cons_of_mem a hy)
    simp [selLoop, ha, hr]

/-- If every supplied pair has arity two and some pair has a member outside
the declared selections, the pair loop raises an `InputError` whose
diagnostic names such an offending member and its pair. -/
theorem pairLoop_mem_fail (sel : List Int) :
    ∀ pairs : List (List Int), (∀ p ∈ pairs, p.length = 2) →
      (∃ p ∈ pairs, ∃ m ∈ p, m ∉ sel) →
      ∃ p ∈ pairs, ∃ m ∈ p, m ∉ sel ∧
        pairLoop sel pairs =
          Except.error (PyErr.inputError (some (pairMsg m p))) := by
  intro pairs
  induction pairs with
  | nil =>
    rintro _ ⟨p, hp, _⟩
    cases hp
  | cons p rest ih =>
    intro hlen hbad
    obtain ⟨a, b, rfl⟩ := List.length_eq_two.mp (hlen p (List.mem_cons_self p rest))
    by_cases ha : a ∈ sel
    · by_cases hb : b ∈ sel
      · have hbad2 : ∃ q ∈ rest, ∃ m ∈ q, m ∉ sel := by
          obtain ⟨q, hq, m, hm, hmn⟩ := hbad
          rcases List.mem_cons.mp hq with rfl | hq2
          · have hm2 : m = a ∨ m = b := by simpa using hm
            rcases hm2 with rfl | rfl
            · exact (hmn ha).elim
            · exact (hmn hb).elim
          · exact ⟨q, hq2, m, hm, hmn⟩
        obtain ⟨q, hq, m, hm, hmn, hres⟩ :=
          ih (fun r hr => hlen r (List.mem_cons_of_mem _ hr)) hbad2
        exact ⟨q, List.mem_cons_of_mem _ hq, m, hm, hmn,
          by simp [pairLoop, ha, hb, hres]⟩
      · exact ⟨[a, b], List.mem_cons_self _ _, b, by simp, hb,
          by simp [pairLoop, ha, hb]⟩
    · exact ⟨[a, b], List.mem_cons_self _ _, a, by simp, ha,
        by simp [pairLoop, ha]⟩

/-- On a fresh instance (no `_input_type` attribute), `_check_inputs` raises
`AttributeError` before touching the document. -/
theorem check_inputs_fresh_attr_error (env : Env) (v : Val) :
    _check_inputs env [] v = Except.error (PyErr.attributeError "_input_type") := rfl

/-! The claims. -/

/-- Claim C1, evidence of a code bug. The spec scenario (topology a.pdb,
trajectory a.dcd, selections 10 and 20, pair (10, 20), window 0..100 step 1,
200-frame structure, all sections present) must validate successfully with
mode Trajectory. Instead: (1) the pipeline raises `AttributeError` reading
the never-assigned `input_type`; (2) `_check_type`, the only assigner, would
indeed classify the document as trajectory but is never invoked; (3) even
dispatched by hand, trajectory validation ends in `NameError` inside
`_check_opt_sapt_settings` after every earlier check passes. -/
theorem trajectory_scenario_pipeline_fails :
    InputReader_new envTrajectory "in.yaml" =
        Except.error (PyErr.attributeError "_input_type") ∧
    _check_type [] cfgTrajectory =
        Except.ok [("_input_type", Val.vstr "trajectory")] ∧
    _check_trj_inputs envTrajectory (Val.vdict cfgTrajectory) =
        Except.error (PyErr.nameError "sapt_settings") :=
  ⟨rfl, rfl, rfl⟩

/-- Claim C2: constructing `InputReader` on a readable, well-formed YAML
mapping raises `AttributeError` (the `input_type` read in `_check_inputs`,
with `_input_type` never assigned) before any mode-specific validation, and
no invocation of the pipeline, whatever the world, terminates successfully. -/
theorem pipeline_always_raises_before_validation :
    (∀ (env : Env) (path : String) (d : Dict),
        env.fs path = FileOutcome.ok (Val.vdict d) →
        InputReader_new env path =
          Except.error (PyErr.attributeError "_input_type")) ∧
    (∀ (env : Env) (path : String), ∃ e : PyErr,
        InputReader_new env path = Except.error e) := by
  constructor
  · intro env path d h
    unfold InputReader_new load_input
    rw [h]
    rfl
  · intro env path
    unfold InputReader_new load_input
    cases h : env.fs path with
    | openFail => exact ⟨_, rfl⟩
    | decodeFail => exact ⟨_, rfl⟩
    | ok v => exact ⟨_, rfl⟩

/-- Witness for claim C2 at the concrete trajectory scenario world. -/
theorem pipeline_always_raises_before_validation_witness :
    InputReader_new envTrajectory "a.yaml" =
      Except.error (PyErr.attributeError "_input_type") :=
  pipeline_always_raises_before_validation.1 envTrajectory "a.yaml" cfgTrajectory rfl

/-- Claim C3: on any document containing neither `topology_directory` nor
`topology_path`, mode detection (`_check_type`) fails with the
mode-detection error (`InputError`, diagnostic "Input file missing
information.") and no other outcome. -/
theorem mode_detection_missing_both_keys_fails (s : Attrs) (d : Dict)
    (h1 : getKey d "topology_directory" = none)
    (h2 : getKey d "topology_path" = none) :
    _check_type s d =
      Except.error (PyErr.inputError (some "Input file missing information.")) := by
  unfold _check_type
  rw [h1, h2]
  rfl

/-- Witness for claim C3 on the empty document. -/
theorem mode_detection_missing_both_keys_fails_witness :
    _check_type [] [] =
      Except.error (PyErr.inputError (some "Input file missing information.")) :=
  mode_detection_missing_both_keys_fails [] [] rfl rfl

/-- Claim C4, evidence of a code bug. The spec docking scenario (two
structures, valid selections, no `int_pairs`) must validate successfully
with mode Docking. Instead: (1) the pipeline raises `AttributeError` reading
the never-assigned `input_type`; (2) `_check_docking_inputs` itself treats
`int_pairs` as required and raises `InputError` when it is absent; (3) with
`int_pairs` supplied, the per-structure loop raises `TypeError` because
`self._check_top_files(path)` calls a one-parameter function with two
positional arguments; (4) `_check_type` on a docking document raises
`AttributeError` by assigning to the getter-only `input_type` property, so
docking mode could never even be selected. -/
theorem docking_scenario_pipeline_fails :
    InputReader_new envDocking "dock.yaml" =
        Except.error (PyErr.attributeError "_input_type") ∧
    _check_docking_inputs (Val.vdict cfgDocking) =
        Except.error (PyErr.inputError (some (missingMsg "int_pairs"))) ∧
    _check_docking_inputs
        (Val.vdict (("int_pairs", Val.vlist []) :: cfgDocking)) =
        Except.error PyErr.typeError ∧
    _check_type [] cfgDocking =
        Except.error (PyErr.attributeError "input_type has no setter") :=
  ⟨rfl, rfl, rfl, rfl⟩

/-- Claim C5: with `start`, `step`, `stop` present (as integers, per the
data model), the window checks run in exactly the order start-ge-stop,
step-ge-stop, step-eq-zero, frames-lt-stop, halting at the first failure
with the corresponding error, and succeed when none fails. -/
theorem trj_settings_check_order (unv : Universe) (trj_settings : Dict)
    (start step stop : Int)
    (h1 : getKey trj_settings "start" = some (Val.vint start))
    (h2 : getKey trj_settings "step" = some (Val.vint step))
    (h3 : getKey trj_settings "stop" = some (Val.vint stop)) :
    _check_trj_settings unv trj_settings =
      (if start ≥ stop then
        Except.error (PyErr.inputError (some "Start is greater than or equal to stop"))
      else if step ≥ stop then
        Except.error (PyErr.inputError (some "Step is greater than or equal to stop"))
      else if step = 0 then
        Except.error (PyErr.inputError (some "Step cannot be 0"))
      else if (unv.nframes : Int) < stop then
        Except.error (PyErr.inputError (some "Stop exceeds length of trajectory."))
      else Except.ok ()) := by
  unfold _check_trj_settings
  rw [h1, h2, h3]

/-- Witness for claim C5: the scenario window 0..100 step 1 against 200
frames passes every check. -/
theorem trj_settings_check_order_witness :
    _check_trj_settings unvA trjSettingsA = Except.ok () := by
  rw [trj_settings_check_order unvA trjSettingsA 0 1 100 rfl rfl rfl]
  norm_num [unvA]

/-- Claim C6 counterexample: against a structure handle on which no selection
resolves, the validator queries only the first declared selection (trace
`[10]`, not `[10, 20]`) before surfacing the failure, refuting the claim that
every declared selection is checked before the first failure surfaces. -/
theorem selection_check_not_exhaustive_cex :
    (_check_selections unvNone [10, 20] none).2 = [10] ∧
    ¬ (_check_selections unvNone [10, 20] none).2 = [10, 20] ∧
    (_check_selections unvNone [10, 20] none).1 =
      Except.error (PyErr.inputError (some (selMsg 10))) :=
  ⟨rfl, by decide, rfl⟩

/-- Claim C6 amended: the selection validator halts at the first failing
residue-id query — ids before it are queried, ids after it are not — and
surfaces that failure; pair checking likewise halts at its first failing
pair (fail-fast is uniform, there is no accumulation). -/
theorem selection_check_halts_at_first_failure (unv : Universe)
    (pre post : List Int) (x : Int) (agp : Option (List (List Int)))
    (hpre : ∀ y ∈ pre, unv.selOk y = true) (hx : unv.selOk x = false) :
    (_check_selections unv (pre ++ x :: post) agp).1 =
        Except.error (PyErr.inputError (some (selMsg x))) ∧
    (_check_selections unv (pre ++ x :: post) agp).2 = pre ++ [x] ∧
    (∀ (sel p : List Int) (rest : List (List Int)) (e : PyErr),
        pairLoop sel [p] = Except.error e →
        pairLoop sel (p :: rest) = Except.error e) := by
  have hsel := selLoop_first_fail unv x hx pre post hpre
  refine ⟨?_, ?_, ?_⟩
  · unfold _check_selections
    rw [hsel]
  · unfold _check_selections
    rw [hsel]
  · intro sel p rest e h
    rcases p with _ | ⟨a, _ | ⟨b, _ | ⟨c, t⟩⟩⟩
    · simpa [pairLoop] using h
    · simpa [pairLoop] using h
    · by_cases ha : a ∈ sel
      · by_cases hb : b ∈ sel
        · simp [pairLoop, ha, hb] at h
        · simpa [pairLoop, ha, hb] using h
      · simpa [pairLoop, ha] using h
    · simpa [pairLoop] using h

/-- Witness for the amended claim C6: id 10 resolves, id 20 does not; both
are queried and the failure names 20. -/
theorem selection_check_halts_at_first_failure_witness :
    (_check_selections unvOnly10 [10, 20] none).1 =
        Except.error (PyErr.inputError (some (selMsg 20))) ∧
    (_check_selections unvOnly10 [10, 20] none).2 = [10, 20] := by
  have h := selection_check_halts_at_first_failure unvOnly10 [10] [] 20 none
    (by decide) (by decide)
  exact ⟨h.1, h.2.1⟩

/-- Claim C7: when every selection resolves and every supplied pair has
arity two, a pair member absent from the declared selection sequence makes
validation fail with the pair-integrity `InputError` naming that offending
member and its pair. -/
theorem pair_member_not_declared_fails (unv : Universe) (ag_sel : List Int)
    (pairs : List (List Int))
    (hsel : ∀ i ∈ ag_sel, unv.selOk i = true)
    (hlen : ∀ p ∈ pairs, p.length = 2)
    (hbad : ∃ p ∈ pairs, ∃ m ∈ p, m ∉ ag_sel) :
    ∃ p ∈ pairs, ∃ m ∈ p, m ∉ ag_sel ∧
      (_check_selections unv ag_sel (some pairs)).1 =
        Except.error (PyErr.inputError (some (pairMsg m p))) := by
  obtain ⟨p, hp, m, hm, hmn, hres⟩ := pairLoop_mem_fail ag_sel pairs hlen hbad
  refine ⟨p, hp, m, hm, hmn, ?_⟩
  unfold _check_selections
  rw [selLoop_all_ok unv ag_sel hsel]
  simpa using hres

/-- Witness for claim C7: pair (10, 99) against selections 10 and 20 fails
naming 99. -/
theorem pair_member_not_declared_fails_witness :
    ∃ p ∈ [[10, 99]], ∃ m ∈ p, m ∉ ([10, 20] : List Int) ∧
      (_check_selections unvA [10, 20] (some [[10, 99]])).1 =
        Except.error (PyErr.inputError (some (pairMsg m p))) :=
  pair_member_not_declared_fails unvA [10, 20] [[10, 99]]
    (by decide) (by decide) (by decide)

/-- Claim C8 counterexample: an unopenable file is converted to `InputError`,
but an undecodable document escapes the loading step as the YAML parser
error, not as `InputError` — `except IOError or InputError` catches only
`IOError`. -/
theorem decode_failure_escapes_as_yaml_error_cex :
    InputReader_new envDecodeFail "bad.yaml" = Except.error PyErr.yamlError ∧
    InputReader_new envOpenFail "bad.yaml" =
      Except.error (PyErr.inputError (some "error loading file bad.yaml")) :=
  ⟨rfl, rfl⟩

/-- Claim C8 amended: the loader raises the typed `InputError` when the file
cannot be opened; when the contents cannot be decoded, the YAML parser error
escapes the loading step unconverted. -/
theorem load_error_kinds (env : Env) (s : Attrs) (path : String) :
    (env.fs path = FileOutcome.openFail →
      load_input env s path =
        Except.error (PyErr.inputError (some ("error loading file " ++ path)))) ∧
    (env.fs path = FileOutcome.decodeFail →
      load_input env s path = Except.error PyErr.yamlError) := by
  constructor
  · intro h
    unfold load_input
    rw [h]
  · intro h
    unfold load_input
    rw [h]

/-- Witness for the amended claim C8 on a concrete unopenable file. -/
theorem load_error_kinds_witness :
    load_input envOpenFail [] "f.yaml" =
      Except.error (PyErr.inputError (some "error loading file f.yaml")) :=
  (load_error_kinds envOpenFail [] "f.yaml").1 rfl

/-- Claim C9: `_check_opt_sapt_settings` never returns normally. With `pH`
present it raises `NameError` (the body reads the undefined name
`sapt_settings`; the parameter is `sapt_setting`), so the
method/basis/settings/save_psi4_output checks never run; with `pH` absent it
raises the typed `InputError`. -/
theorem opt_sapt_check_never_returns (opt_settings sapt_setting : Dict) :
    ((∃ v, getKey opt_settings "pH" = some v) →
      _check_opt_sapt_settings opt_settings sapt_setting =
        Except.error (PyErr.nameError "sapt_settings")) ∧
    (getKey opt_settings "pH" = none →
      _check_opt_sapt_settings opt_settings sapt_setting =
        Except.error (PyErr.inputError (some "pH: missing data in input file"))) ∧
    (∃ e, _check_opt_sapt_settings opt_settings sapt_setting =
        Except.error e) := by
  refine ⟨?_, ?_, ?_⟩
  · rintro ⟨v, hv⟩
    unfold _check_opt_sapt_settings
    rw [hv]
  · intro h
    unfold _check_opt_sapt_settings
    rw [h]
  · unfold _check_opt_sapt_settings
    cases getKey opt_settings "pH" with
    | none => exact ⟨_, rfl⟩
    | some v => exact ⟨_, rfl⟩

/-- Witness for claim C9 on fully populated settings blocks. -/
theorem opt_sapt_check_never_returns_witness :
    _check_opt_sapt_settings optSettingsA saptSettingsA =
      Except.error (PyErr.nameError "sapt_settings") :=
  (opt_sapt_check_never_returns optSettingsA saptSettingsA).1 ⟨Val.vfloat 7, rfl⟩

/-- Claim C10: two validation runs on the same document and the same
referenced structure files yield the same outcome. Every piece of state the
source mutates is per-instance and rebuilt from scratch by `__init__`; the
embedding threads all of it explicitly, so the two runs of `runTwice`
coincide for every world and path. -/
theorem pipeline_deterministic_across_runs (env : Env) (path : String) :
    (runTwice env path).1 = (runTwice env path).2 := rfl

end MDSAPT
